import Mathlib

/-!
Verification development for the amano data-mapping layer.

The definitions below are a shallow embedding of `src/amano/table.py` and
`src/amano/base_attribute.py`.  Components of the repository that are not
part of the provided sources (the constants module, the condition builder,
the item state machine, the error classes and the cursor) are modelled from
the specification; each such definition carries a doc comment saying so.
-/

set_option autoImplicit false

/-- Modelled from the spec: the constants module is not under src/.  §3 and the
AttributeValue typed dictionary in base_attribute.py give the wire tags of the
tagged union: S, N, B, SS, NS, BS, M, L, NULL, BOOL. -/
def TYPE_STRING : String := "S"

/-- Modelled from the spec: wire tag for numbers. -/
def TYPE_NUMBER : String := "N"

/-- Modelled from the spec: wire tag for booleans. -/
def TYPE_BOOLEAN : String := "BOOL"

/-- Modelled from the spec: wire tag for binary values. -/
def TYPE_BINARY : String := "B"

/-- Modelled from the spec: wire tag for nulls. -/
def TYPE_NULL : String := "NULL"

/-- Modelled from the spec: wire tag for lists. -/
def TYPE_LIST : String := "L"

/-- Modelled from the spec: wire tag for maps. -/
def TYPE_MAP : String := "M"

/-- Modelled from the spec: wire tag for number sets. -/
def TYPE_NUMBER_SET : String := "NS"

/-- Modelled from the spec: wire tag for string sets. -/
def TYPE_STRING_SET : String := "SS"

/-- Modelled from the spec: wire tag for binary sets. -/
def TYPE_BINARY_SET : String := "BS"

/-- The closed enumeration `AttributeType` of base_attribute.py (a
`StringEnum`: each member carries a string tag as its value). -/
inductive AttributeType
  | STRING
  | NUMBER
  | BOOLEAN
  | BINARY
  | NULL
  | LIST
  | MAP
  | NUMBER_SET
  | STRING_SET
  | BINARY_SET
deriving DecidableEq, Repr

/-- The string tag of an `AttributeType` member (the enum's `.value`). -/
def AttributeType.value : AttributeType → String
  | .STRING => TYPE_STRING
  | .NUMBER => TYPE_NUMBER
  | .BOOLEAN => TYPE_BOOLEAN
  | .BINARY => TYPE_BINARY
  | .NULL => TYPE_NULL
  | .LIST => TYPE_LIST
  | .MAP => TYPE_MAP
  | .NUMBER_SET => TYPE_NUMBER_SET
  | .STRING_SET => TYPE_STRING_SET
  | .BINARY_SET => TYPE_BINARY_SET

/-- The enum constructor `AttributeType(tag)`: looks a member up by its string
value; `none` models the `ValueError` Python raises for an unknown tag. -/
def AttributeType.ofValue (s : String) : Option AttributeType :=
  [AttributeType.STRING, .NUMBER, .BOOLEAN, .BINARY, .NULL, .LIST, .MAP,
    .NUMBER_SET, .STRING_SET, .BINARY_SET].find? (fun a => a.value == s)

/-- `AttributeType.__eq__` against a raw string (base_attribute.py lines
179-181): compares the member's value with the string. -/
def AttributeType.eqStr (a : AttributeType) (s : String) : Bool :=
  a.value == s

/-- `AttributeType.__eq__` against another `AttributeType` (base_attribute.py
lines 183-184): compares the two members' string values. -/
def AttributeType.eqAT (a b : AttributeType) : Bool :=
  a.value == b.value

/-- Non-generic Python types appearing as keys of `_SUPPORTED_BASE_TYPES`
in base_attribute.py. -/
inductive PyBase
  | strT
  | anyStrT
  | datetimeT
  | dateT
  | timeT
  | decimalT
  | intT
  | floatT
  | listT
  | seqT
  | setT
  | frozensetT
  | tupleT
  | dictT
  | mappingT
  | typedDictT
  | noneT
  | bytesT
  | bytearrayT
  | boolT
deriving DecidableEq, Repr

/-- The `_SUPPORTED_BASE_TYPES` static lookup table of base_attribute.py
(lines 81-107): non-generic host type to wire tag. -/
def supportedBaseType : PyBase → String
  | .strT => TYPE_STRING
  | .anyStrT => TYPE_STRING
  | .datetimeT => TYPE_STRING
  | .dateT => TYPE_STRING
  | .timeT => TYPE_STRING
  | .decimalT => TYPE_NUMBER
  | .intT => TYPE_NUMBER
  | .floatT => TYPE_NUMBER
  | .listT => TYPE_LIST
  | .seqT => TYPE_LIST
  | .setT => TYPE_LIST
  | .frozensetT => TYPE_LIST
  | .tupleT => TYPE_LIST
  | .dictT => TYPE_MAP
  | .mappingT => TYPE_MAP
  | .typedDictT => TYPE_MAP
  | .noneT => TYPE_NULL
  | .bytesT => TYPE_BINARY
  | .bytearrayT => TYPE_BINARY
  | .boolT => TYPE_BOOLEAN

/-- Origin shapes of generic container types.  `other` stands for any origin
that is not a key of `_SUPPORTED_GENERIC_TYPES`. -/
inductive PyOrigin
  | listO
  | tupleO
  | setO
  | frozensetO
  | dictO
  | other
deriving DecidableEq, Repr

/-- The `_SUPPORTED_GENERIC_TYPES` static lookup table of base_attribute.py
(lines 109-115): generic origin to wire tag; `none` models absence from the
table. -/
def supportedGenericType : PyOrigin → Option String
  | .listO => some TYPE_LIST
  | .tupleO => some TYPE_LIST
  | .setO => some TYPE_LIST
  | .frozensetO => some TYPE_LIST
  | .dictO => some TYPE_MAP
  | .other => none

/-- A Python type expression as classified by `AttributeType.from_python_type`:
a non-generic supported type, a dataclass, or a generic application of an
origin to argument types. -/
inductive PyType
  | base (b : PyBase)
  | dataclass (name : String)
  | generic (origin : PyOrigin) (args : List PyType)

/-- Failure modes of `from_python_type`: the `TypeError` raised for an
unsupported type (carrying its message), and the index error Python would
raise reading the first type argument of a bare generic. -/
inductive TypeResolutionError
  | unsupported (message : String)
  | indexError
deriving DecidableEq, Repr

instance {e a : Type} [DecidableEq e] [DecidableEq a] : DecidableEq (Except e a) := fun x y =>
  match x, y with
  | .ok v, .ok w => if h : v = w then .isTrue (by rw [h]) else .isFalse (by intro hc; cases hc; exact h rfl)
  | .error v, .error w => if h : v = w then .isTrue (by rw [h]) else .isFalse (by intro hc; cases hc; exact h rfl)
  | .ok _, .error _ => .isFalse (by intro hc; cases hc)
  | .error _, .ok _ => .isFalse (by intro hc; cases hc)

/-- `AttributeType.from_python_type` (base_attribute.py lines 143-169): base
types resolve through `_SUPPORTED_BASE_TYPES`; dataclasses map to MAP; generic
types resolve their origin through `_SUPPORTED_GENERIC_TYPES` (unsupported
origins raise), and set/frozenset origins additionally resolve the element
type recursively, yielding STRING_SET, NUMBER_SET or BINARY_SET when the
element resolves to STRING, NUMBER or BINARY, and otherwise falling through
to the origin's generic mapping. -/
def AttributeType.from_python_type : PyType → Except TypeResolutionError AttributeType
  | .base b =>
      match AttributeType.ofValue (supportedBaseType b) with
      | some a => .ok a
      | none => .error (.unsupported "Unsupported type")
  | .dataclass _ => .ok AttributeType.MAP
  | .generic origin args =>
      match supportedGenericType origin with
      | none => .error (.unsupported "Unsupported type")
      | some tag =>
        if origin = PyOrigin.setO ∨ origin = PyOrigin.frozensetO then
          match args with
          | [] => .error .indexError
          | sub :: _ =>
            match AttributeType.from_python_type sub with
            | .error e => .error e
            | .ok mapped =>
              if mapped.eqAT AttributeType.STRING then .ok AttributeType.STRING_SET
              else if mapped.eqAT AttributeType.NUMBER then .ok AttributeType.NUMBER_SET
              else if mapped.eqAT AttributeType.BINARY then .ok AttributeType.BINARY_SET
              else
                match AttributeType.ofValue tag with
                | some a => .ok a
                | none => .error (.unsupported "Unsupported type")
        else
          match AttributeType.ofValue tag with
          | some a => .ok a
          | none => .error (.unsupported "Unsupported type")

example : AttributeType.from_python_type (PyType.generic PyOrigin.setO [PyType.base PyBase.strT]) = Except.ok AttributeType.STRING_SET := by decide

example : AttributeType.from_python_type (PyType.generic PyOrigin.setO [PyType.base PyBase.boolT]) = Except.ok AttributeType.LIST := by decide

example : AttributeType.from_python_type (PyType.generic PyOrigin.frozensetO [PyType.base PyBase.intT]) = Except.ok AttributeType.NUMBER_SET := by decide

/-- Modelled from the spec: the condition module is not under src/.  §4.3 says
a condition renders to an expression string plus a value-placeholder map, and
table.py consumes exactly that rendered form (`str(condition)`,
`condition.attributes`, `condition.values`), so a condition is embedded as its
rendered data. -/
structure Condition where
  expression : String
  attributes : List String
  values : List (String × String)
deriving DecidableEq, Repr

/-- The Python dict merge `\x7b**a, **b\x7d` used at table.py lines 266-269:
keys of `a` keep their positions with values overridden by `b` where shared,
then the keys of `b` absent from `a` follow. -/
def dictMerge (a b : List (String × String)) : List (String × String) :=
  a.map (fun p => (p.1, (List.lookup p.1 b).getD p.2))
  ++ b.filter (fun p => (List.lookup p.1 a).isNone)

/-- The `Index` descriptor of index.py (not under src/): table.py reads its
`name`, `partition_key` and `sort_key` fields; the primary index carries the
reserved name `#`. -/
structure Index where
  name : String
  partition_key : String
  sort_key : Option String
deriving DecidableEq, Repr

/-- The `QueryError` of errors.py (not under src/): per §7 it carries a
message and, when raised from `get`, the attempted key map. -/
structure QueryError where
  message : String
  query : List (String × String)
deriving DecidableEq, Repr

/-- The table-level metadata that `Table` derives once at construction:
the table name, the index set in declaration order (a Python dict preserves
insertion order, so its `.values()` iteration is the declaration order), the
primary partition/sort keys and the bound item class's attribute names. -/
structure TableMeta where
  table_name : String
  indexes : List Index
  partition_key : String
  sort_key : Option String
  attributes : List String
deriving DecidableEq, Repr

/-- `Table._hint_index_for_attributes` (table.py lines 365-397): with one
attribute, the first index whose partition key equals it, else an error; with
any other attribute list, the candidates are the indexes whose partition key
is in the list and whose sort key is present and in the list; the first
candidate whose partition key equals the first attribute is returned
immediately, otherwise the first candidate, and an error when there is none. -/
def Table.hint_index_for_attributes (idxs : List Index) (attrs : List String) : Except QueryError Index :=
  match attrs with
  | [a] =>
      match idxs.find? (fun i => i.partition_key == a) with
      | some i => Except.ok i
      | none => Except.error ⟨"No GSI index defined for `" ++ a ++ "` attribute.", []⟩
  | _ =>
      let candidates := idxs.filter (fun i =>
        attrs.contains i.partition_key &&
          match i.sort_key with
          | some s => attrs.contains s
          | none => false)
      match candidates.find? (fun i => attrs.head? == some i.partition_key) with
      | some i => Except.ok i
      | none =>
          match candidates with
          | [] => Except.error ⟨"No GSI/LSI index defined for `" ++ String.intercalate "`,`" attrs ++ "` attributes.", []⟩
          | i :: _ => Except.ok i

/-- Does the second character list start with the first one? -/
def charsBegins : List Char → List Char → Bool
  | [], _ => true
  | _ :: _, [] => false
  | a :: ns, b :: hs => a == b && charsBegins ns hs

/-- Does the first character list contain the second as a contiguous run? -/
def charsHasSub : List Char → List Char → Bool
  | [], n => n.isEmpty
  | c :: t, n => charsBegins n (c :: t) || charsHasSub t n

/-- Substring test: Python's `needle in haystack` on strings. -/
def strContainsSub (haystack needle : String) : Bool :=
  charsHasSub haystack.data needle.data

example : strContainsSub "a OR b" " OR " = true := by decide

example : strContainsSub "contains(a, :v)" "contains" = true := by decide

example : strContainsSub "a = :a" " OR " = false := by decide

/-- Modelled from the spec: the constants module is not under src/.  §4.3/§6
name the logical OR keyword of rendered expressions; it is spelled with
surrounding spaces as rendered between two composed conditions. -/
def CONDITION_LOGICAL_OR : String := " OR "

/-- Modelled from the spec: the constants module is not under src/.  §4.3
names the `contains(...)` function of rendered expressions. -/
def CONDITION_FUNCTION_CONTAINS : String := "contains"

/-- The request dictionary that `Table.query` hands to the cursor (table.py
lines 251-274); the cursor itself is modelled by this captured request. -/
structure QueryRequest where
  tableName : String
  keyConditionExpression : String
  expressionAttributeValues : List (String × String)
  projectionExpression : String
  indexName : Option String
  filterExpression : Option String
  limit : Option Nat
  consistentRead : Bool
deriving DecidableEq, Repr

/-- The index-hint step of `Table.query` (table.py lines 238-249): an explicit
`Index` object is used as-is; a non-empty string must name a registered index,
otherwise a `QueryError` is raised; without a (truthy) hint the index is
resolved from the key condition's attributes. -/
def Table.resolve_hint (t : TableMeta) (use_index : Option (Sum Index String)) (kce : String) (attrs : List String) : Except QueryError Index :=
  match use_index with
  | some (Sum.inl i) => Except.ok i
  | some (Sum.inr name) =>
      if name = "" then Table.hint_index_for_attributes t.indexes attrs
      else
        match t.indexes.find? (fun i => i.name == name) with
        | some i => Except.ok i
        | none => Except.error ⟨"Used unknown index `" ++ name ++ "` in query `" ++ kce ++ "` ", []⟩
  | none => Table.hint_index_for_attributes t.indexes attrs

/-- `Table.query` (table.py lines 211-274): rejects key conditions that list
more than two attributes or whose rendered expression contains the OR keyword
or the contains function; resolves the target index; builds the request,
attaching the filter expression and merging the filter condition's placeholder
map over the key condition's with a plain dict merge. -/
def Table.query (t : TableMeta) (key_condition : Condition) (filter_condition : Option Condition) (lim : Nat) (use_index : Option (Sum Index String)) (consistent_read : Bool) : Except QueryError QueryRequest :=
  if key_condition.attributes.length > 2 then
    Except.error ⟨"Could not execute query `" ++ key_condition.expression ++ "`, too many attributes in key_condition.", []⟩
  else if strContainsSub key_condition.expression CONDITION_LOGICAL_OR || strContainsSub key_condition.expression CONDITION_FUNCTION_CONTAINS then
    Except.error ⟨"Could not execute query `" ++ key_condition.expression ++ "`, used operator is not supported.", []⟩
  else
    match Table.resolve_hint t use_index key_condition.expression key_condition.attributes with
    | Except.error e => Except.error e
    | Except.ok hint_index =>
        Except.ok
          { tableName := t.table_name
            keyConditionExpression := key_condition.expression
            expressionAttributeValues :=
              match filter_condition with
              | some f => dictMerge key_condition.values f.values
              | none => key_condition.values
            projectionExpression := String.intercalate ", " t.attributes
            indexName := if hint_index.name ≠ "#" then some hint_index.name else none
            filterExpression := filter_condition.map (fun f => f.expression)
            limit := if lim ≠ 0 then some lim else none
            consistentRead := consistent_read }

/-- The `_ChangeType` enumeration of item.py (not under src/): §3 and §4.5
name the three change kinds SET, CHANGE and UNSET. -/
inductive _ChangeType
  | SET
  | CHANGE
  | UNSET
deriving DecidableEq, Repr

/-- One entry of an item's change log: the attribute's name, the change kind,
and the already-extracted wire value (the attribute codec producing it lives
in the attribute module, which is not under src/). -/
structure Change where
  name : String
  type : _ChangeType
  value : String
deriving DecidableEq, Repr

/-- Modelled from the spec: the `_ItemState` enumeration of item.py is not
under src/.  §4.5 names the states NEW, CLEAN and the derived condition
DIRTY. -/
inductive _ItemState
  | NEW
  | CLEAN
  | DIRTY
deriving DecidableEq, Repr

/-- Modelled from the spec: the `Item` base class of item.py is not under
src/.  §3/§4.5: an item holds attribute values, an ordered change log, and a
lineage bit (`persisted` is false for a caller-constructed NEW item and true
once the item matches a store row). -/
structure Item where
  persisted : Bool
  log : List Change
  values : List (String × String)
deriving DecidableEq, Repr

/-- Modelled from the spec: `Item._state()` per §4.5 — NEW when never
persisted; for store lineage, CLEAN when the log is empty and the derived
DIRTY condition otherwise. -/
def Item.state (it : Item) : _ItemState :=
  if it.persisted = false then _ItemState.NEW
  else if it.log.isEmpty then _ItemState.CLEAN
  else _ItemState.DIRTY

/-- Modelled from the spec: `Item._commit()` per §4.5 — a successful commit
makes the state CLEAN and clears the log. -/
def Item.commit (it : Item) : Item :=
  { it with persisted := true, log := [] }

/-- Modelled from the spec: `Item.extract()` serializes the item's attribute
values into the wire mapping (§6); values are kept abstract as
already-serialized strings. -/
def Item.extract (it : Item) : List (String × String) :=
  it.values

/-- `getattr(item, name)` on an attribute name, as used by
`Table._get_key_expression`. -/
def Item.getattr (it : Item) (name : String) : String :=
  (List.lookup name it.values).getD ""

/-- The dict comprehension at table.py lines 180-183: one live entry per
attribute name, in first-occurrence order, with the last change for each name
winning. -/
def changes_dict (log : List Change) : List Change :=
  log.foldl
    (fun acc c =>
      if acc.any (fun p => p.name == c.name)
      then acc.map (fun p => if p.name == c.name then c else p)
      else acc ++ [c])
    []

/-- `Table._generate_update_expression` (table.py lines 176-209): SET and
CHANGE kinds contribute `name = :name` pairs to the SET clause and a
`:name` placeholder entry; UNSET kinds are collected into `delete_fields`;
the DELETE clause, however, is rendered from `set_fields` (the source joins
`set_fields`, not `delete_fields`, at line 206). -/
def Table.generate_update_expression (log : List Change) : String × List (String × String) :=
  let entries := changes_dict log
  let set_fields := entries.filterMap (fun c =>
    if c.type = _ChangeType.CHANGE ∨ c.type = _ChangeType.SET then some c.name else none)
  let attribute_values := entries.filterMap (fun c =>
    if c.type = _ChangeType.CHANGE ∨ c.type = _ChangeType.SET then some (":" ++ c.name, c.value) else none)
  let delete_fields := entries.filterMap (fun c =>
    if c.type = _ChangeType.UNSET then some c.name else none)
  let withSet :=
    if set_fields.isEmpty then ""
    else "SET " ++ String.intercalate "," (set_fields.map (fun f => f ++ " = :" ++ f)) ++ " "
  let update_expression :=
    if delete_fields.isEmpty then withSet
    else withSet ++ "DELETE " ++ String.intercalate "," set_fields ++ " "
  (update_expression, attribute_values)

/-- Store responses observable by `Table.put` through the client: a plain
response carrying an HTTP status code, a `ClientError` carrying the error
code and message, or a `ParamValidationError`. -/
inductive StoreResponse
  | success (httpStatus : Nat)
  | clientError (code : String) (message : String)
  | paramValidationError (message : String)
deriving DecidableEq, Repr

/-- Store responses observable by `Table.update`, which only handles
`ClientError` besides a plain response. -/
inductive UpdateResponse
  | success (httpStatus : Nat)
  | clientError (code : String) (message : String)
deriving DecidableEq, Repr

/-- The `PutItemError` of errors.py (not under src/): §7 distinguishes a
pre-flight validation failure from a wrapped store-side rejection. -/
inductive PutItemError
  | clientError (message : String)
  | validationError (message : String)
deriving DecidableEq, Repr

/-- The `UpdateItemError` of errors.py (not under src/): §7 names the
new-item misuse and the wrapped store-side rejection. -/
inductive UpdateItemError
  | newItem
  | clientError (message : String)
deriving DecidableEq, Repr

/-- The request dictionary built by `Table.put` (table.py lines 118-126):
the condition expression is attached when a condition is given, and the
placeholder map only when it is non-empty. -/
structure PutQuery where
  tableName : String
  item : List (String × String)
  conditionExpression : Option String
  expressionAttributeValues : Option (List (String × String))
deriving DecidableEq, Repr

/-- Builds the `put_item` request of table.py lines 118-126. -/
def Table.put_query (t : TableMeta) (item : Item) (cond : Option Condition) : PutQuery :=
  { tableName := t.table_name
    item := item.extract
    conditionExpression := cond.map (fun c => c.expression)
    expressionAttributeValues :=
      match cond with
      | some c => if c.values.isEmpty then none else some c.values
      | none => none }

/-- The response handling of `Table.put` (table.py lines 128-142): a
conditional-check failure returns `false`; any other `ClientError` raises a
client put error; a `ParamValidationError` raises a validation put error; a
plain response returns whether the status is 200, committing the item only
then. -/
def Table.put_response_result (item : Item) (resp : StoreResponse) : Except PutItemError (Bool × Item) :=
  match resp with
  | .clientError code msg =>
      if code = "ConditionalCheckFailedException" then Except.ok (false, item)
      else Except.error (PutItemError.clientError msg)
  | .paramValidationError msg => Except.error (PutItemError.validationError msg)
  | .success status =>
      if status == 200 then Except.ok (true, item.commit)
      else Except.ok (false, item)

/-- Outcome of a `Table.put` call: either the interface rejected the value
before any store round trip, or a request was issued and handled.  The
`rejectedBeforeRequest` constructor expresses what raising the type-mismatch
`ValueError` of table.py lines 112-116 would produce. -/
inductive PutOutcome
  | rejectedBeforeRequest (message : String)
  | requested (q : PutQuery) (r : Except PutItemError (Bool × Item))
deriving DecidableEq, Repr

/-- `Table.put` (table.py lines 102-142).  `isInstance` is the result of the
`isinstance(item, self._item_class)` test: when it is false the source
constructs a `ValueError` and discards it without raising (line 113), so the
request is issued regardless. -/
def Table.put (t : TableMeta) (isInstance : Bool) (item : Item) (cond : Option Condition) (resp : StoreResponse) : PutOutcome :=
  let _typeError : Option String :=
    if isInstance then none
    else some "Could not persist item of the wrong type, expected instance of the bound item class instead."
  PutOutcome.requested (Table.put_query t item cond) (Table.put_response_result item resp)

/-- The request dictionary built by `Table.update` (table.py lines 156-162). -/
structure UpdateQuery where
  tableName : String
  key : List (String × String)
  updateExpression : String
  expressionAttributeValues : List (String × String)
deriving DecidableEq, Repr

/-- `Table._get_key_expression` (table.py lines 306-314): the partition key
value, plus the sort key value when the table defines a sort key. -/
def Table.key_expression (t : TableMeta) (item : Item) : List (String × String) :=
  match t.sort_key with
  | some sk => [(t.partition_key, item.getattr t.partition_key), (sk, item.getattr sk)]
  | none => [(t.partition_key, item.getattr t.partition_key)]

/-- `Table.update` (table.py lines 144-174): returns `false` without a
request for a CLEAN item; raises for a NEW item; otherwise renders the update
expression, issues the request, wraps a `ClientError`, and on a 200 response
commits the item and returns `true`.  The third component is the issued
request, `none` when no request was made. -/
def Table.update (t : TableMeta) (item : Item) (resp : UpdateResponse) : Except UpdateItemError (Bool × Item × Option UpdateQuery) :=
  if item.state = _ItemState.CLEAN then Except.ok (false, item, none)
  else if item.state = _ItemState.NEW then Except.error UpdateItemError.newItem
  else
    let rendered := Table.generate_update_expression item.log
    let q : UpdateQuery :=
      { tableName := t.table_name
        key := Table.key_expression t item
        updateExpression := rendered.1
        expressionAttributeValues := rendered.2 }
    match resp with
    | .clientError _ msg => Except.error (UpdateItemError.clientError msg)
    | .success status =>
        if status == 200 then Except.ok (true, item.commit, some q)
        else Except.ok (false, item, some q)

/-- Store responses observable by `Table.get`: a row, the absence of an
`Item` entry in the response, or a `ClientError`. -/
inductive GetResponse
  | item (row : List (String × String))
  | noItem
  | clientError (message : String)
deriving DecidableEq, Repr

/-- The errors `Table.get` can raise (errors.py is not under src/): a
`QueryError` wrapping a store rejection, or an `ItemNotFoundError`; §7 says
both carry the attempted key map for diagnostics. -/
inductive GetError
  | queryError (message : String) (query : List (String × String))
  | itemNotFound (message : String) (query : List (String × String))
deriving DecidableEq, Repr

/-- The key map built by `Table.get` (table.py lines 277-279): the first
positional key under the partition key name and, when a second positional
key is given, that key under the sort key name. -/
def Table.key_query (t : TableMeta) (k0 : String) (ks : List String) : List (String × String) :=
  match ks with
  | [] => [(t.partition_key, k0)]
  | k1 :: _ => [(t.partition_key, k0), (t.sort_key.getD "", k1)]

/-- `Table.get` (table.py lines 276-304): a `ClientError` is wrapped into a
`QueryError` carrying the key map; a response without an item raises an
`ItemNotFoundError` carrying the key map; otherwise the row is hydrated
(hydration lives in item.py, not under src/, so the row itself is
returned). -/
def Table.get (t : TableMeta) (k0 : String) (ks : List String) (resp : GetResponse) : Except GetError (List (String × String)) :=
  let kq := Table.key_query t k0 ks
  match resp with
  | .clientError msg =>
      Except.error (GetError.queryError ("Retrieving item using query failed with message: " ++ msg) kq)
  | .noItem =>
      Except.error (GetError.itemNotFound "Could not retrieve item matching criteria" kq)
  | .item row => Except.ok row

/-- The element-type dispatch the source applies to set and frozenset
origins, written as a function of the element's own resolution: the three
scalar set variants, the LIST fallthrough for any other resolved type, and
error propagation. -/
def setElementResolution : Except TypeResolutionError AttributeType → Except TypeResolutionError AttributeType
  | Except.ok AttributeType.STRING => Except.ok AttributeType.STRING_SET
  | Except.ok AttributeType.NUMBER => Except.ok AttributeType.NUMBER_SET
  | Except.ok AttributeType.BINARY => Except.ok AttributeType.BINARY_SET
  | Except.ok _ => Except.ok AttributeType.LIST
  | Except.error e => Except.error e

/-- The two-attribute resolution rule as §4.4 words it: candidates are the
indexes whose partition and sort keys are both present in the unordered
attribute pair; the first candidate whose partition key equals the first
listed attribute is returned immediately, otherwise the first candidate in
index-declaration order, and an error when there is no candidate. -/
def resolve_two_spec (idxs : List Index) (x y : String) : Except QueryError Index :=
  let candidates := idxs.filter (fun i =>
    (i.partition_key == x || i.partition_key == y) &&
      (i.sort_key == some x || i.sort_key == some y))
  match candidates.find? (fun i => i.partition_key == x) with
  | some i => Except.ok i
  | none =>
      match candidates with
      | [] => Except.error ⟨"No GSI/LSI index defined for `" ++ String.intercalate "`,`" [x, y] ++ "` attributes.", []⟩
      | i :: _ => Except.ok i

/-- Claim C1: the claim says the DELETE clause of the generated update
expression holds exactly the UNSET attribute names.  Evaluating
`Table.generate_update_expression` at an item log holding one UNSET change
(`a`) and one SET change (`b`) shows the source instead renders the DELETE
clause from `set_fields`: the expression is `SET b = :b DELETE b ` — the
UNSET attribute `a` never appears and the SET attribute `b` is deleted. -/
theorem C1_delete_clause_renders_set_fields :
    Table.generate_update_expression
        [⟨"a", _ChangeType.UNSET, "1"⟩, ⟨"b", _ChangeType.SET, "2"⟩]
      = ("SET b = :b DELETE b ", [(":b", "2")]) := by
  decide

/-- Claim C9: `AttributeType` equality is valid against raw string tags and
against other members: every member equals its own string value, and two
members compare equal exactly when their string tags are equal. -/
theorem C9_attribute_type_equality : ∀ a b : AttributeType,
    AttributeType.eqStr a a.value = true ∧
    AttributeType.eqAT a b = decide (a.value = b.value) := by
  intro a b
  exact ⟨by cases a <;> decide, by cases a <;> cases b <;> decide⟩

/-- Claim C4 counterexample: `Set[bool]` — the element type resolves to
BOOLEAN, which is none of STRING, NUMBER, BINARY, yet `from_python_type`
returns the value LIST instead of raising an unsupported-type error. -/
theorem C4_counterexample :
    AttributeType.from_python_type (PyType.base PyBase.boolT) = Except.ok AttributeType.BOOLEAN ∧
    AttributeType.from_python_type (PyType.generic PyOrigin.setO [PyType.base PyBase.boolT])
      = Except.ok AttributeType.LIST := by
  decide

/-- Claim C4 (amended): for set and frozenset host types the resolution
returns STRING_SET, NUMBER_SET or BINARY_SET exactly when the element type
resolves to STRING, NUMBER or BINARY; when the element resolves to any other
`AttributeType` the function returns LIST (the origin's generic mapping)
rather than raising, and it raises only when the element type itself fails to
resolve, propagating that error. -/
theorem C4_set_resolution : ∀ (elem : PyType) (rest : List PyType),
    AttributeType.from_python_type (PyType.generic PyOrigin.setO (elem :: rest))
      = setElementResolution (AttributeType.from_python_type elem) ∧
    AttributeType.from_python_type (PyType.generic PyOrigin.frozensetO (elem :: rest))
      = setElementResolution (AttributeType.from_python_type elem) := by
  intro elem rest
  constructor <;>
    cases helem : AttributeType.from_python_type elem with
    | error e =>
        simp [AttributeType.from_python_type, supportedGenericType, helem, setElementResolution]
    | ok a =>
        cases a <;>
          simp [AttributeType.from_python_type, supportedGenericType, helem,
            setElementResolution, AttributeType.eqAT, AttributeType.value,
            AttributeType.ofValue, TYPE_STRING, TYPE_NUMBER, TYPE_BOOLEAN, TYPE_BINARY,
            TYPE_NULL, TYPE_LIST, TYPE_MAP, TYPE_NUMBER_SET, TYPE_STRING_SET, TYPE_BINARY_SET]

theorem lookup_append_eq (k : String) (l1 l2 : List (String × String)) :
    List.lookup k (l1 ++ l2) =
      (match List.lookup k l1 with
       | some v => some v
       | none => List.lookup k l2) := by
  induction l1 with
  | nil => simp [List.lookup]
  | cons p t ih =>
      cases hk : (k == p.1) <;> simp [List.lookup, hk, ih]

theorem lookup_map_getD (k : String) (a b : List (String × String)) :
    List.lookup k (a.map (fun p => (p.1, (List.lookup p.1 b).getD p.2))) =
      (List.lookup k a).map (fun v => (List.lookup k b).getD v) := by
  induction a with
  | nil => simp [List.lookup]
  | cons p t ih =>
      cases hk : (k == p.1) with
      | true =>
          have hke : k = p.1 := eq_of_beq hk
          simp [List.lookup, hk, hke]
      | false => simp [List.lookup, hk, ih]

theorem lookup_filter_absent (k : String) (a b : List (String × String))
    (h : List.lookup k a = none) :
    List.lookup k (b.filter (fun p => (List.lookup p.1 a).isNone)) = List.lookup k b := by
  induction b with
  | nil => simp
  | cons p t ih =>
      cases hk : (k == p.1) with
      | true =>
          have hke : k = p.1 := eq_of_beq hk
          have hp : (List.lookup p.1 a).isNone = true := by rw [← hke, h]; rfl
          simp [List.filter, hp, List.lookup, hk]
      | false =>
          cases hp : (List.lookup p.1 a).isNone <;>
            simp [List.filter, hp, List.lookup, hk, ih]

theorem dictMerge_lookup (a b : List (String × String)) (k : String) :
    List.lookup k (dictMerge a b) =
      (match List.lookup k b with
       | some vb => some vb
       | none => List.lookup k a) := by
  unfold dictMerge
  rw [lookup_append_eq, lookup_map_getD]
  cases ha : List.lookup k a with
  | some va =>
      cases hb : List.lookup k b <;> simp [ha, hb]
  | none =>
      rw [lookup_filter_absent k a b ha]
      cases hb : List.lookup k b <;> simp [ha, hb]

/-- Claim C2 counterexample: a key condition and a filter condition whose
placeholder maps share the key `:x`.  `Table.query` succeeds instead of
raising, and the merged map in the request holds only the filter condition's
value `2` — the key condition's value `1` has been silently dropped. -/
theorem C2_counterexample :
    Table.query ⟨"t", [⟨"#", "pk", none⟩], "pk", none, ["pk", "f"]⟩
        ⟨"pk = :x", ["pk"], [(":x", "1")]⟩
        (some ⟨"f > :x", ["f"], [(":x", "2")]⟩) 0 none false
      = Except.ok
          { tableName := "t"
            keyConditionExpression := "pk = :x"
            expressionAttributeValues := [(":x", "2")]
            projectionExpression := "pk, f"
            indexName := none
            filterExpression := some "f > :x"
            limit := none
            consistentRead := false } := by
  decide

/-- Claim C2 (amended): the merge at table.py lines 266-269 is a plain dict
merge and does not raise on a placeholder collision: for every key, the
merged map yields the filter condition's value when that map holds the key,
silently overwriting the key condition's value, and the key condition's
value otherwise.  At the concrete collision above the request is built
without error and carries the filter's value. -/
theorem C2_merge_overwrites :
    (∀ (a b : List (String × String)) (k : String),
      List.lookup k (dictMerge a b) =
        (match List.lookup k b with
         | some vb => some vb
         | none => List.lookup k a)) ∧
    (Table.query ⟨"t2", [⟨"#", "p", none⟩], "p", none, ["p", "g"]⟩
        ⟨"p = :y", ["p"], [(":y", "left")]⟩
        (some ⟨"g > :y", ["g"], [(":y", "right")]⟩) 0 none false).toOption.map
          (fun r => r.expressionAttributeValues) = some [(":y", "right")] := by
  exact ⟨dictMerge_lookup, by decide⟩


set_option maxRecDepth 8000 in
theorem hint_two_eq_spec (idxs : List Index) (x y : String) :
    Table.hint_index_for_attributes idxs [x, y] = resolve_two_spec idxs x y := by
  have hcand : (fun i : Index => [x, y].contains i.partition_key &&
        (match i.sort_key with
         | some s => [x, y].contains s
         | none => false)) =
      (fun i : Index => (i.partition_key == x || i.partition_key == y) &&
        (i.sort_key == some x || i.sort_key == some y)) := by
    funext i
    cases hsk : i.sort_key with
    | none =>
        rw [Bool.eq_iff_iff]
        simp [beq_iff_eq]
    | some s =>
        rw [Bool.eq_iff_iff]
        simp [List.contains, beq_iff_eq]
  have hfind : (fun i : Index => [x, y].head? == some i.partition_key) =
      (fun i : Index => i.partition_key == x) := by
    funext i
    rw [Bool.eq_iff_iff]
    simp [beq_iff_eq]
    exact eq_comm
  simp only [Table.hint_index_for_attributes, resolve_two_spec]
  rw [hcand, hfind]

theorem hint_one_ok_pk (idxs : List Index) (x : String) (i : Index)
    (h : Table.hint_index_for_attributes idxs [x] = Except.ok i) : i.partition_key = x := by
  simp only [Table.hint_index_for_attributes] at h
  cases hf : idxs.find? (fun j => j.partition_key == x) with
  | some j =>
      rw [hf] at h
      cases h
      have hp := @List.find?_some _ _ _ _ hf
      exact eq_of_beq hp
  | none =>
      rw [hf] at h
      cases h

theorem hint_one_error_iff (idxs : List Index) (x : String) :
    (∃ e, Table.hint_index_for_attributes idxs [x] = Except.error e) ↔
      ∀ i ∈ idxs, i.partition_key ≠ x := by
  simp only [Table.hint_index_for_attributes]
  cases hf : idxs.find? (fun j => j.partition_key == x) with
  | some j =>
      constructor
      · rintro ⟨e, he⟩
        cases he
      · intro hall
        have hp := @List.find?_some _ _ _ _ hf
        exact absurd (eq_of_beq hp) (hall j (List.mem_of_find?_eq_some hf))
  | none =>
      constructor
      · intro _ i hi hpk
        rw [List.find?_eq_none] at hf
        exact hf i hi (by simp [hpk])
      · intro _
        exact ⟨_, rfl⟩

/-- Claim C3: index resolution is deterministic for a fixed index set and
attribute ordering.  With one attribute it returns an index whose partition
key equals that attribute and errors exactly when no index matches; with two
attributes it agrees with the §4.4 rule (candidates by unordered membership
of both keys, immediate return of a candidate whose partition key is the
first attribute, else the first candidate in declaration order, error on
zero candidates); and swapping the two attributes can change the chosen
index, as the concrete two-index set shows. -/
theorem C3_index_resolution : (∀ (idxs : List Index) (x : String) (i : Index),
      Table.hint_index_for_attributes idxs [x] = Except.ok i → i.partition_key = x) ∧
    (∀ (idxs : List Index) (x : String),
      (∃ e, Table.hint_index_for_attributes idxs [x] = Except.error e) ↔
        ∀ i ∈ idxs, i.partition_key ≠ x) ∧
    (∀ (idxs : List Index) (x y : String),
      Table.hint_index_for_attributes idxs [x, y] = resolve_two_spec idxs x y) ∧
    (Table.hint_index_for_attributes
        [⟨"I1", "a", some "b"⟩, ⟨"I2", "b", some "a"⟩] ["a", "b"]
        = Except.ok ⟨"I1", "a", some "b"⟩ ∧
      Table.hint_index_for_attributes
        [⟨"I1", "a", some "b"⟩, ⟨"I2", "b", some "a"⟩] ["b", "a"]
        = Except.ok ⟨"I2", "b", some "a"⟩) :=
  ⟨hint_one_ok_pk, hint_one_error_iff, hint_two_eq_spec, by decide, by decide⟩

/-- Claim C3 witness: the resolution facts instantiated at concrete inputs —
a one-index set resolves a single attribute to that index's partition key,
and the empty index set yields an error. -/
theorem C3_index_resolution_witness :
    (⟨"#", "pk", none⟩ : Index).partition_key = "pk" ∧
    (∃ e, Table.hint_index_for_attributes ([] : List Index) ["pk"] = Except.error e) :=
  ⟨C3_index_resolution.1 [⟨"#", "pk", none⟩] "pk" ⟨"#", "pk", none⟩ (by decide),
   (C3_index_resolution.2.1 [] "pk").mpr (fun i hi => absurd hi (List.not_mem_nil i))⟩

/-- Claim C5: `update` on an item of store lineage with an empty change log
returns `false` and issues no request (the request component is `none`), and
`update` on a NEW (never-persisted) item raises the new-item update error
before any request. -/
theorem C5_update_noop_and_new : ∀ (t : TableMeta) (item : Item) (resp : UpdateResponse),
    (item.persisted = true → item.log = [] →
      Table.update t item resp = Except.ok (false, item, none)) ∧
    (item.persisted = false →
      Table.update t item resp = Except.error UpdateItemError.newItem) := by
  intro t item resp
  constructor
  · intro hp hl
    simp [Table.update, Item.state, hp, hl]
  · intro hp
    simp [Table.update, Item.state, hp]

/-- Claim C5 witness: a committed item with an empty log yields `false` with
no request, and a never-persisted item yields the new-item error. -/
theorem C5_update_noop_and_new_witness :
    Table.update ⟨"t", [], "pk", none, []⟩ ⟨true, [], []⟩ (UpdateResponse.success 200)
      = Except.ok (false, ⟨true, [], []⟩, none) ∧
    Table.update ⟨"t", [], "pk", none, []⟩ ⟨false, [], []⟩ (UpdateResponse.success 200)
      = Except.error UpdateItemError.newItem :=
  ⟨(C5_update_noop_and_new ⟨"t", [], "pk", none, []⟩ ⟨true, [], []⟩
      (UpdateResponse.success 200)).1 rfl rfl,
   (C5_update_noop_and_new ⟨"t", [], "pk", none, []⟩ ⟨false, [], []⟩
      (UpdateResponse.success 200)).2 rfl⟩

/-- Claim C10: the isinstance pre-flight check in `put` is ineffective — the
result of `Table.put` does not depend on whether the argument is an instance
of the bound item class, and even for a wrong-typed argument the call builds
the serialized request and issues it (the outcome is always `requested`,
never a pre-flight rejection). -/
theorem C10_type_check_ineffective : ∀ (t : TableMeta) (item : Item) (cond : Option Condition) (resp : StoreResponse),
    Table.put t false item cond resp = Table.put t true item cond resp ∧
    Table.put t false item cond resp
      = PutOutcome.requested (Table.put_query t item cond) (Table.put_response_result item resp) := by
  intro t item cond resp
  exact ⟨rfl, rfl⟩

/-- Claim C8: when the store returns no item, `get` raises the not-found
error carrying exactly the attempted key map — the partition key value, plus
the sort key value when a second key is given — and never returns a value. -/
theorem C8_get_not_found : ∀ (t : TableMeta) (k0 : String) (ks : List String) (resp : GetResponse),
    resp = GetResponse.noItem →
    (Table.get t k0 ks resp
        = Except.error (GetError.itemNotFound "Could not retrieve item matching criteria"
            (Table.key_query t k0 ks))) ∧
    (ks = [] → Table.key_query t k0 ks = [(t.partition_key, k0)]) ∧
    (∀ k1 kr sk, ks = k1 :: kr → t.sort_key = some sk →
      Table.key_query t k0 ks = [(t.partition_key, k0), (sk, k1)]) ∧
    (∀ row, ¬ Table.get t k0 ks resp = Except.ok row) := by
  intro t k0 ks resp h
  subst h
  refine ⟨rfl, ?_, ?_, ?_⟩
  · intro hks
    subst hks
    rfl
  · intro k1 kr sk hks hsk
    subst hks
    simp [Table.key_query, hsk]
  · intro row hcontra
    simp [Table.get] at hcontra

/-- Claim C8 witness: a concrete composite-key lookup that finds nothing
raises the not-found error carrying both attempted key values. -/
theorem C8_get_not_found_witness :
    Table.get ⟨"t", [], "artist_name", some "track_name", []⟩ "AC/DC"
        ["Let There Be No Rock"] GetResponse.noItem
      = Except.error (GetError.itemNotFound "Could not retrieve item matching criteria"
          [("artist_name", "AC/DC"), ("track_name", "Let There Be No Rock")]) := by
  have h := C8_get_not_found ⟨"t", [], "artist_name", some "track_name", []⟩ "AC/DC"
    ["Let There Be No Rock"] GetResponse.noItem rfl
  have hk := h.2.2.1 "Let There Be No Rock" [] "track_name" rfl rfl
  rw [h.1, hk]

/-- Claim C6: under the transport guarantee that a non-raising store response
carries status 200, `put` returns `false` exactly when the store reports a
conditional-check failure; it raises a put error exactly when the store
reports any other client error or a parameter-validation failure; and on a
success response it returns `true` and commits the item, leaving it CLEAN
with an empty change log. -/
theorem C6_put_semantics : ∀ (t : TableMeta) (flag : Bool) (item : Item) (cond : Option Condition) (resp : StoreResponse),
    (∀ s, resp = StoreResponse.success s → s = 200) →
    ((Table.put t flag item cond resp
        = PutOutcome.requested (Table.put_query t item cond) (Except.ok (false, item)))
      ↔ (∃ m, resp = StoreResponse.clientError "ConditionalCheckFailedException" m)) ∧
    ((∃ e, Table.put t flag item cond resp
        = PutOutcome.requested (Table.put_query t item cond) (Except.error e))
      ↔ ((∃ c m, resp = StoreResponse.clientError c m ∧ c ≠ "ConditionalCheckFailedException")
          ∨ (∃ m, resp = StoreResponse.paramValidationError m))) ∧
    (∀ s, resp = StoreResponse.success s →
      (Table.put t flag item cond resp
          = PutOutcome.requested (Table.put_query t item cond) (Except.ok (true, item.commit))
        ∧ (item.commit).state = _ItemState.CLEAN ∧ (item.commit).log = [])) := by
  intro t flag item cond resp hs
  cases resp with
  | success s =>
      have h200 : s = 200 := hs s rfl
      subst h200
      refine ⟨?_, ?_, ?_⟩
      · constructor
        · intro h
          simp [Table.put, Table.put_response_result] at h
        · rintro ⟨m, hm⟩
          cases hm
      · constructor
        · rintro ⟨e, he⟩
          simp [Table.put, Table.put_response_result] at he
        · rintro (⟨c, m, hm, _⟩ | ⟨m, hm⟩) <;> cases hm
      · intro s2 hs2
        cases hs2
        refine ⟨?_, ?_, rfl⟩
        · simp [Table.put, Table.put_response_result]
        · simp [Item.commit, Item.state]
  | clientError c m =>
      by_cases hc : c = "ConditionalCheckFailedException"
      · subst hc
        refine ⟨?_, ?_, ?_⟩
        · constructor
          · intro _
            exact ⟨m, rfl⟩
          · intro _
            simp [Table.put, Table.put_response_result]
        · constructor
          · rintro ⟨e, he⟩
            simp [Table.put, Table.put_response_result] at he
          · rintro (⟨c2, m2, hm2, hne⟩ | ⟨m2, hm2⟩)
            · cases hm2
              exact absurd rfl hne
            · cases hm2
        · intro s2 hs2
          cases hs2
      · refine ⟨?_, ?_, ?_⟩
        · constructor
          · intro h
            simp [Table.put, Table.put_response_result, hc] at h
          · rintro ⟨m2, hm2⟩
            cases hm2
            exact absurd rfl hc
        · constructor
          · intro _
            exact Or.inl ⟨c, m, rfl, hc⟩
          · intro _
            refine ⟨PutItemError.clientError m, ?_⟩
            simp [Table.put, Table.put_response_result, hc]
        · intro s2 hs2
          cases hs2
  | paramValidationError m =>
      refine ⟨?_, ?_, ?_⟩
      · constructor
        · intro h
          simp [Table.put, Table.put_response_result] at h
        · rintro ⟨m2, hm2⟩
          cases hm2
      · constructor
        · intro _
          exact Or.inr ⟨m, rfl⟩
        · intro _
          exact ⟨PutItemError.validationError m, rfl⟩
      · intro s2 hs2
        cases hs2

/-- Claim C6 witness: a conditional-check failure response at a concrete
table and item yields the `false` outcome without an error. -/
theorem C6_put_semantics_witness :
    Table.put ⟨"t", [], "pk", none, []⟩ true ⟨true, [], []⟩ none
        (StoreResponse.clientError "ConditionalCheckFailedException" "boom")
      = PutOutcome.requested (Table.put_query ⟨"t", [], "pk", none, []⟩ ⟨true, [], []⟩ none)
          (Except.ok (false, ⟨true, [], []⟩)) :=
  ((C6_put_semantics ⟨"t", [], "pk", none, []⟩ true ⟨true, [], []⟩ none
      (StoreResponse.clientError "ConditionalCheckFailedException" "boom")
      (fun _ h => nomatch h)).1).mpr ⟨"boom", rfl⟩

theorem resolve_hint_error_iff (t : TableMeta) (ui : Option (Sum Index String)) (kce : String) (attrs : List String) :
    (∃ e, Table.resolve_hint t ui kce attrs = Except.error e) ↔
      ((∃ name, ui = some (Sum.inr name) ∧ name ≠ "" ∧
          t.indexes.find? (fun i => i.name == name) = none)
        ∨ ((ui = none ∨ ui = some (Sum.inr "")) ∧
          ∃ e, Table.hint_index_for_attributes t.indexes attrs = Except.error e)) := by
  cases ui with
  | none => simp [Table.resolve_hint]
  | some h =>
      cases h with
      | inl i => simp [Table.resolve_hint]
      | inr name =>
          by_cases hn : name = ""
          · subst hn
            simp [Table.resolve_hint]
          · cases hf : t.indexes.find? (fun i => i.name == name) with
            | some i =>
                simp [Table.resolve_hint, hn, hf]
                have hp := @List.find?_some _ _ _ _ hf
                exact ⟨i, List.mem_of_find?_eq_some hf, eq_of_beq hp⟩
            | none =>
                simp [Table.resolve_hint, hn, hf]
                rw [List.find?_eq_none] at hf
                intro x hx hcontra
                exact hf x hx (by simp [hcontra])
theorem query_error_iff (t : TableMeta) (kc : Condition) (fc : Option Condition) (lim : Nat) (ui : Option (Sum Index String)) (cr : Bool) :
    (∃ e, Table.query t kc fc lim ui cr = Except.error e) ↔
      (2 < kc.attributes.length
        ∨ strContainsSub kc.expression CONDITION_LOGICAL_OR = true
        ∨ strContainsSub kc.expression CONDITION_FUNCTION_CONTAINS = true
        ∨ (∃ e, Table.resolve_hint t ui kc.expression kc.attributes = Except.error e)) := by
  by_cases h1 : 2 < kc.attributes.length
  · simp [Table.query, h1]
  · by_cases h2 : (strContainsSub kc.expression CONDITION_LOGICAL_OR
        || strContainsSub kc.expression CONDITION_FUNCTION_CONTAINS) = true
    · rw [Bool.or_eq_true] at h2
      cases h2 with
      | inl hA => simp [Table.query, h1, hA]
      | inr hB => simp [Table.query, h1, hB]
    · rw [Bool.or_eq_true] at h2
      push_neg at h2
      have hA : strContainsSub kc.expression CONDITION_LOGICAL_OR = false :=
        Bool.eq_false_iff.mpr h2.1
      have hB : strContainsSub kc.expression CONDITION_FUNCTION_CONTAINS = false :=
        Bool.eq_false_iff.mpr h2.2
      cases hr : Table.resolve_hint t ui kc.expression kc.attributes with
      | error e => simp [Table.query, h1, hA, hB, hr]
      | ok i => simp [Table.query, h1, hA, hB, hr]

/-- Claim C7 (amended): `query` raises a query error before any store round
trip exactly when the key condition lists more than 2 attributes, when its
rendered expression contains the OR keyword or the contains function, or when
the index-hint step fails; and the index-hint step fails exactly when a
non-empty string hint names no registered index, or when no (truthy) hint is
given and resolution from the key condition's attributes fails.  Otherwise
`query` returns the cursor's request. -/
theorem C7_query_error_conditions : (∀ (t : TableMeta) (kc : Condition) (fc : Option Condition) (lim : Nat) (ui : Option (Sum Index String)) (cr : Bool),
      (∃ e, Table.query t kc fc lim ui cr = Except.error e) ↔
        (2 < kc.attributes.length
          ∨ strContainsSub kc.expression CONDITION_LOGICAL_OR = true
          ∨ strContainsSub kc.expression CONDITION_FUNCTION_CONTAINS = true
          ∨ (∃ e, Table.resolve_hint t ui kc.expression kc.attributes = Except.error e))) ∧
    (∀ (t : TableMeta) (ui : Option (Sum Index String)) (kce : String) (attrs : List String),
      (∃ e, Table.resolve_hint t ui kce attrs = Except.error e) ↔
        ((∃ name, ui = some (Sum.inr name) ∧ name ≠ "" ∧
            t.indexes.find? (fun i => i.name == name) = none)
          ∨ ((ui = none ∨ ui = some (Sum.inr "")) ∧
            ∃ e, Table.hint_index_for_attributes t.indexes attrs = Except.error e))) :=
  ⟨query_error_iff, resolve_hint_error_iff⟩

/-- Claim C7 counterexample: a key condition over the single attribute
`other` violates none of the three conditions the claim lists — at most two
attributes, no OR keyword, no contains function, and no index hint at all —
yet `query` raises a query error, because index resolution finds no index for
`other`.  The claim's `exactly when` is therefore false. -/
theorem C7_counterexample :
    Table.query ⟨"tbl", [⟨"#", "pk", some "sk"⟩], "pk", some "sk", ["pk", "sk", "other"]⟩
        ⟨"other = :other", ["other"], [(":other", "v")]⟩ none 0 none false
      = Except.error ⟨"No GSI index defined for `other` attribute.", []⟩ ∧
    ¬ 2 < (["other"] : List String).length ∧
    strContainsSub "other = :other" CONDITION_LOGICAL_OR = false ∧
    strContainsSub "other = :other" CONDITION_FUNCTION_CONTAINS = false := by
  decide
